import Mathlib

/-!
Shallow embedding of the `SelectEntities` GUI plugin and the `Material`
ECS component header of this gz-sim repository slice.

The plugin source (`SelectEntitiesPrivate` and `SelectEntities`) is
translated function by function.  Calls into the external rendering and
GUI libraries are modelled as follows:

* the rendering scene is a record of lookup functions (`visualAt`,
  `visualById`, `scene3DCamera`); scene-graph object creation performed by
  the rendering library inside `HighlightNode` (material, wire-box
  geometry, child visual) is library-internal state and is abstracted to
  the two plugin-visible effects it has: the entry inserted in the
  `wireBoxes` map and the visibility flag of the wire-box parent visual;
* events posted to the main window are collected in an output list;
* a dereference of a null pointer by the plugin code itself is modelled
  by the result `none` of an `Option`-valued step function.
-/

/-- Modelled from the spec: `Entity` (from `Entity.hh`, not under `src/`) is the
numeric identifier for a simulated object in the host ECS. -/
abbrev Entity := Nat

/-- Modelled from the spec: `kNullEntity` (from `Entity.hh`, not under `src/`) is
the reserved null entity identifier, modelled as `0`. -/
def kNullEntity : Entity := 0

/-- A renderable node of the 3D scene graph.  `id` is the identifier returned by
`Visual::Id()`; `gazeboEntity` is the value stored under the user-data key
`"gazebo-entity"`, read in the source by
`std::get<int>(visual->UserData("gazebo-entity"))`. -/
structure Visual where
  id : Nat
  gazeboEntity : Entity
deriving DecidableEq

/-- A user camera token (the plugin only passes it to scene lookups). -/
structure Camera where
  camId : Nat
deriving DecidableEq

/-- The part of `ignition::common::MouseEvent` the plugin reads: the position. -/
structure MouseEvent where
  pos : Int × Int
deriving DecidableEq

/-- Events the plugin posts to the main window via `App()->sendEvent`. -/
inductive GuiEvent where
  | entitiesSelected (entities : List Nat) (fromUser : Bool)
  | deselectAllEvent (fromUser : Bool)
deriving DecidableEq

/-- The plugin-visible state of one wire-box map entry: whether the wire box was
given a parent visual (`AddGeometry` into `wireBoxVis`), and whether that
parent visual is currently visible. -/
structure WireBoxEntry where
  hasParent : Bool
  parentVisible : Bool
deriving DecidableEq

/-- The rendering scene, as the record of the lookups the plugin performs on it:
`VisualAt(camera, pos)`, `VisualById(id)` and
`SensorByName("Scene3DCamera")` cast to a camera. -/
structure Scene where
  visualAt : Option Camera → Int × Int → Option Visual
  visualById : Nat → Option Visual
  scene3DCamera : Option Camera

/-- `SelectionHelper` struct of the source. -/
structure SelectionHelper where
  selectEntity : Entity
  deselectAll : Bool
  sendEvent : Bool
deriving DecidableEq

/-- The value-initialized `SelectionHelper()` with its member defaults. -/
def defaultSelectionHelper : SelectionHelper :=
  { selectEntity := kNullEntity, deselectAll := false, sendEvent := false }

/-- The fields of `SelectEntitiesPrivate`.  The `std::unordered_map` of wire
boxes is modelled as an association list keyed by entity id. -/
structure PluginState where
  selectionHelper : SelectionHelper
  selectedEntities : List Nat
  scene : Option Scene
  wireBoxes : List (Entity × WireBoxEntry)
  mouseEvent : MouseEvent
  mouseDirty : Bool
  camera : Option Camera
  transformControlActive : Bool

/-- Reading `UserData("gazebo-entity")` behind the `if (_visual)` guard: the
entity id of a possibly-null visual, `kNullEntity` when null. -/
def gazeboEntityOf (vis : Option Visual) : Entity :=
  match vis with
  | some v => v.gazeboEntity
  | none => kNullEntity

/-- `unordered_map::find` on the wire-box map. -/
def wbFind (m : List (Entity × WireBoxEntry)) (e : Entity) : Option WireBoxEntry :=
  match m with
  | [] => none
  | (k, wb) :: rest => if k = e then some wb else wbFind rest e

/-- `visParent->SetVisible(b)` for the wire box stored under key `e`. -/
def wbSetParentVisible (m : List (Entity × WireBoxEntry)) (e : Entity) (b : Bool) :
    List (Entity × WireBoxEntry) :=
  m.map fun p => if p.1 = e then (p.1, { p.2 with parentVisible := b }) else p

/-- `SelectEntitiesPrivate::LowlightNode`: if the (possibly null) visual maps to
a wire-box entry, hide the wire-box parent visual; never removes the entry. -/
def LowlightNode (vis : Option Visual) (s : PluginState) : PluginState :=
  let entityId := gazeboEntityOf vis
  match wbFind s.wireBoxes entityId with
  | some wb =>
    if wb.hasParent then
      { s with wireBoxes := wbSetParentVisible s.wireBoxes entityId false }
    else s
  | none => s

/-- `SelectEntitiesPrivate::HighlightNode`: on the first selection of an entity
create the highlight material, wire box and parent visual and insert the map
entry (this dereferences `this->scene` and `_visual`, hence the `none`
results); on a later selection just reshow the existing wire box. -/
def HighlightNode (vis : Option Visual) (s : PluginState) : Option PluginState :=
  let entityId := gazeboEntityOf vis
  match wbFind s.wireBoxes entityId with
  | none =>
    match s.scene with
    | none => none
    | some _ =>
      match vis with
      | none => none
      | some _ =>
        some { s with
          wireBoxes := s.wireBoxes ++ [(entityId, { hasParent := true, parentVisible := true })] }
  | some wb =>
    if wb.hasParent then
      some { s with wireBoxes := wbSetParentVisible s.wireBoxes entityId true }
    else some s

/-- `SelectEntitiesPrivate::SetSelectedEntity`: guard on a null entity id, then
`selectedEntities.push_back(_visual->Id())`, highlight, and post an
`EntitiesSelected(selectedEntities, true)` event. -/
def SetSelectedEntity (vis : Option Visual) (s : PluginState) :
    Option (PluginState × List GuiEvent) :=
  let entityId := gazeboEntityOf vis
  if entityId = kNullEntity then some (s, [])
  else
    match vis with
    | none => none
    | some v =>
      let s1 := { s with selectedEntities := s.selectedEntities ++ [v.id] }
      match HighlightNode vis s1 with
      | none => none
      | some s2 => some (s2, [GuiEvent.entitiesSelected s2.selectedEntities true])

/-- `SelectEntitiesPrivate::DeselectAllEntities`: guarded by `if (this->scene)`;
lowlight each selected id via `VisualById`, clear the list, and post a
`DeselectAllEntities(true)` event. -/
def DeselectAllEntities (s : PluginState) : PluginState × List GuiEvent :=
  match s.scene with
  | none => (s, [])
  | some sc =>
    let s1 := s.selectedEntities.foldl (fun acc e => LowlightNode (sc.visualById e) acc) s
    ({ s1 with selectedEntities := [] }, [GuiEvent.deselectAllEvent true])

/-- `SelectEntitiesPrivate::UpdateSelectedEntity`: deselect all when Control is
not held and the selection is nonempty, or when the transform control is
active; then select the new visual; then possibly post a second
`EntitiesSelected` event (default `fromUser = false`). -/
def UpdateSelectedEntity (ctrl : Bool) (vis : Option Visual) (sendEv : Bool)
    (s : PluginState) : Option (PluginState × List GuiEvent) :=
  let deselectedAll := (!ctrl && !s.selectedEntities.isEmpty) || s.transformControlActive
  let r1 := if deselectedAll then DeselectAllEntities s else (s, [])
  match SetSelectedEntity vis r1.1 with
  | none => none
  | some (s2, evs2) =>
    if sendEv || deselectedAll then
      some (s2, r1.2 ++ evs2 ++ [GuiEvent.entitiesSelected s2.selectedEntities false])
    else
      some (s2, r1.2 ++ evs2)

/-- `SelectEntitiesPrivate::HandleEntitySelection`: return unless the mouse is
dirty, clear the dirty flag, ray cast via `this->scene->VisualAt` (a null
`this->scene` is dereferenced here, modelled by `none`), deselect all on a
miss, otherwise record the hit entity in the selection helper and either
deselect all or update the selection, resetting the helper. -/
def HandleEntitySelection (ctrl : Bool) (s : PluginState) :
    Option (PluginState × List GuiEvent) :=
  if s.mouseDirty = false then some (s, [])
  else
    let s1 := { s with mouseDirty := false }
    match s1.scene with
    | none => none
    | some sc =>
      match sc.visualAt s1.camera s1.mouseEvent.pos with
      | none => some (DeselectAllEntities s1)
      | some visual =>
        let s2 := { s1 with
          selectionHelper := { s1.selectionHelper with selectEntity := visual.gazeboEntity } }
        if s2.selectionHelper.deselectAll then
          let r := DeselectAllEntities s2
          some ({ r.1 with selectionHelper := defaultSelectionHelper }, r.2)
        else if s2.selectionHelper.selectEntity ≠ kNullEntity then
          match UpdateSelectedEntity ctrl (some visual) s2.selectionHelper.sendEvent s2 with
          | none => none
          | some (s3, evs) =>
            some ({ s3 with selectionHelper := defaultSelectionHelper }, evs)
        else some (s2, [])

/-- The rendering environment outside the plugin: the result of
`rendering::sceneFromFirstRenderEngine()`. -/
structure RenderEnv where
  firstRenderEngineScene : Option Scene

/-- `SelectEntitiesPrivate::Initialize`: fetch the scene on first use, return
early when unavailable; then look up the `Scene3DCamera` sensor (a failed
lookup logs an error and leaves the camera null). -/
def Initialize (env : RenderEnv) (s : PluginState) : PluginState :=
  match s.scene with
  | some _ => s
  | none =>
    match env.firstRenderEngineScene with
    | none => s
    | some sc => { s with scene := some sc, camera := sc.scene3DCamera }

/-- The event types distinguished by `SelectEntities::eventFilter`. -/
inductive QEvent where
  | leftClickOnScene (mouse : MouseEvent)
  | render
  | transformControlMode (active : Bool)
  | other

/-- `SelectEntities::eventFilter`, with the Control-modifier keyboard state
passed in as `ctrl`: a left click only records the mouse event and sets the
dirty flag; a render event initializes and handles the pending selection; a
transform-control-mode event records the tool state. -/
def eventFilter (env : RenderEnv) (ctrl : Bool) (ev : QEvent) (s : PluginState) :
    Option (PluginState × List GuiEvent) :=
  match ev with
  | QEvent.leftClickOnScene m => some ({ s with mouseEvent := m, mouseDirty := true }, [])
  | QEvent.render => HandleEntitySelection ctrl (Initialize env s)
  | QEvent.transformControlMode b => some ({ s with transformControlActive := b }, [])
  | QEvent.other => some (s, [])

/-- Run a script of (Control-state, event) pairs through the event filter,
accumulating posted events. -/
def runScript (env : RenderEnv) : List (Bool × QEvent) → PluginState →
    Option (PluginState × List GuiEvent)
  | [], s => some (s, [])
  | (ctrl, ev) :: rest, s =>
    match eventFilter env ctrl ev s with
    | none => none
    | some (s1, evs) =>
      match runScript env rest s1 with
      | none => none
      | some (s2, evs2) => some (s2, evs ++ evs2)

/-- The freshly constructed plugin state: default-initialized members of
`SelectEntitiesPrivate`. -/
def initialState : PluginState :=
  { selectionHelper := defaultSelectionHelper
    selectedEntities := []
    scene := none
    wireBoxes := []
    mouseEvent := { pos := (0, 0) }
    mouseDirty := false
    camera := none
    transformControlActive := false }

/-- The keys currently present in the wire-box decoration map. -/
def wireBoxKeys (s : PluginState) : List Entity := s.wireBoxes.map Prod.fst

/-- Specification-side ghost, not source code: the entity the spec regards as
selected by one render step from state `s`, if any.  It restates the guard
conditions under which the source reaches `SetSelectedEntity` with a hit
visual; it is used only to phrase the decoration-map invariant the way the
spec words it (an entry exists iff its entity was selected). -/
def renderStepSelected (env : RenderEnv) (s : PluginState) : Option Entity :=
  let s0 := Initialize env s
  if s0.mouseDirty = false then none
  else
    match s0.scene with
    | none => none
    | some sc =>
      match sc.visualAt s0.camera s0.mouseEvent.pos with
      | none => none
      | some v =>
        if s0.selectionHelper.deselectAll then none
        else if v.gazeboEntity ≠ kNullEntity then some v.gazeboEntity
        else none

/-- Specification-side ghost: the entity selected by one event-filter step. -/
def stepSelected (env : RenderEnv) (ev : QEvent) (s : PluginState) : Option Entity :=
  match ev with
  | QEvent.render => renderStepSelected env s
  | _ => none

/-! ### The Material ECS component header

The `Component` template, the `ComponentToMsgSerializer` template and the
registration macro live in the host ECS framework headers
(`Component.hh`, `Serialization.hh`, `Factory.hh`), which are not under
`src/`; they are modelled from the spec.  The `MaterialSerializer` and
`Material` aliases and the registration name string are from the source
header. -/

/-- Modelled from the spec: opaque stand-in for the `sdf::Material` data type
of the external sdformat library. -/
structure SdfMaterial

/-- Modelled from the spec: opaque stand-in for the `msgs::Material` protobuf
message type. -/
structure MsgsMaterial

/-- The incomplete tag type `class MaterialTag` of the source header. -/
structure MaterialTag

/-- Modelled from the spec: the `ComponentToMsgSerializer` template of
`Serialization.hh` (not under `src/`), pairing a component data type with a
message type and converting between the two. -/
structure ComponentToMsgSerializer (D M : Type) where
  serialize : D → M
  deserialize : M → D

/-- The `MaterialSerializer` alias of the source header. -/
def MaterialSerializer : Type := ComponentToMsgSerializer SdfMaterial MsgsMaterial

/-- Modelled from the spec: the `Component` template of `Component.hh` (not
under `src/`), a templated data holder over its data type, distinguished by a
tag type and paired with a serializer type. -/
structure Component (Data : Type) (Tag : Type) (Serializer : Type) where
  data : Data

/-- The `components::Material` alias of the source header. -/
def Material : Type := Component SdfMaterial MaterialTag MaterialSerializer

/-- Modelled from the spec: the component registry of the host ECS framework
(`Factory.hh`, not under `src/`), holding registration names and component
types; the `IGN_GAZEBO_REGISTER_COMPONENT` invocation of the source header
adds the one entry. -/
def componentRegistry : List (String × Type) := [("gz_sim_components.Material", Material)]

/-! ### Concrete scenes and states used by counterexamples and witnesses -/

/-- A visual whose scene-graph id and gazebo entity id differ. -/
def c1Visual : Visual := { id := 5, gazeboEntity := 7 }

/-- A scene in which every ray cast hits `c1Visual`. -/
def c1Scene : Scene :=
  { visualAt := fun _ _ => some c1Visual
    visualById := fun i => if i = 5 then some c1Visual else none
    scene3DCamera := some { camId := 1 } }

def c1Env : RenderEnv := { firstRenderEngineScene := some c1Scene }

/-- Two Ctrl-clicks on the same spot, each followed by a render callback. -/
def c1Script : List (Bool × QEvent) :=
  [(true, QEvent.leftClickOnScene { pos := (10, 20) }), (true, QEvent.render),
   (true, QEvent.leftClickOnScene { pos := (10, 20) }), (true, QEvent.render)]

/-- A state with a recorded click but no scene ever initialized. -/
def c2State : PluginState := { initialState with mouseDirty := true }

def c2wScene : Scene :=
  { visualAt := fun _ _ => none
    visualById := fun _ => none
    scene3DCamera := none }

def c2wState : PluginState :=
  { initialState with scene := some c2wScene, mouseDirty := true }

def c3Scene : Scene :=
  { visualAt := fun _ _ => none
    visualById := fun _ => none
    scene3DCamera := none }

def c3State : PluginState :=
  { initialState with scene := some c3Scene, selectedEntities := [3, 4] }

def c4Env : RenderEnv := { firstRenderEngineScene := none }

def c4Mouse : MouseEvent := { pos := (3, 4) }

def c5Visual : Visual := { id := 15, gazeboEntity := 17 }

def c5Scene : Scene :=
  { visualAt := fun _ _ => some c5Visual
    visualById := fun i => if i = 15 then some c5Visual else none
    scene3DCamera := some { camId := 2 } }

def c5Env : RenderEnv := { firstRenderEngineScene := some c5Scene }

/-- Activate the transform control, then click and render with Control held. -/
def c5Script : List (Bool × QEvent) :=
  [(true, QEvent.transformControlMode true),
   (true, QEvent.leftClickOnScene { pos := (1, 2) }),
   (true, QEvent.render)]

def c5wVisual : Visual := { id := 31, gazeboEntity := 33 }

def c5wScene : Scene :=
  { visualAt := fun _ _ => some c5wVisual
    visualById := fun _ => none
    scene3DCamera := none }

def c5wState : PluginState :=
  { initialState with
    scene := some c5wScene,
    mouseDirty := true,
    transformControlActive := true,
    selectedEntities := [88] }

def c6Visual : Visual := { id := 21, gazeboEntity := 23 }

def c6Scene : Scene :=
  { visualAt := fun _ _ => some c6Visual
    visualById := fun _ => none
    scene3DCamera := none }

def c6State : PluginState := { initialState with scene := some c6Scene }

def c6wVisual : Visual := { id := 41, gazeboEntity := 43 }

def c6wScene : Scene :=
  { visualAt := fun _ _ => none
    visualById := fun _ => none
    scene3DCamera := none }

def c6wState : PluginState := { initialState with scene := some c6wScene }

/-- A visual whose gazebo entity user data is the null entity. -/
def c6wNullVisual : Visual := { id := 45, gazeboEntity := 0 }

def c7Env : RenderEnv := { firstRenderEngineScene := none }

def c7Visual : Visual := { id := 51, gazeboEntity := 53 }

def c7Scene : Scene :=
  { visualAt := fun _ _ => none
    visualById := fun _ => none
    scene3DCamera := none }

def c7State : PluginState := { initialState with scene := some c7Scene }

def c9Scene : Scene :=
  { visualAt := fun _ _ => none
    visualById := fun _ => none
    scene3DCamera := none }

/-- A state with a recorded click, a scene, a nonempty selection, Control
irrelevant, and a pending deselect-all request. -/
def c9State : PluginState :=
  { initialState with
    scene := some c9Scene,
    mouseDirty := true,
    selectedEntities := [9],
    selectionHelper := { selectEntity := 0, deselectAll := true, sendEvent := false } }

def c10State : PluginState := { initialState with selectedEntities := [2, 3] }

/-! ### Helper lemmas about the wire-box map -/

theorem wbSetParentVisible_keys (m : List (Entity × WireBoxEntry)) (e : Entity) (b : Bool) :
    (wbSetParentVisible m e b).map Prod.fst = m.map Prod.fst := by
  induction m with
  | nil => rfl
  | cons p rest ih =>
    simp only [wbSetParentVisible, List.map_cons] at ih ⊢
    by_cases h : p.1 = e <;> simp [h, ih]

theorem wbFind_isSome_iff_mem (m : List (Entity × WireBoxEntry)) (x : Entity) :
    (wbFind m x).isSome = true ↔ x ∈ m.map Prod.fst := by
  induction m with
  | nil => simp [wbFind]
  | cons p rest ih =>
    obtain ⟨k, wb⟩ := p
    by_cases h : k = x
    · subst h; simp [wbFind]
    · simp only [wbFind, if_neg h, List.map_cons, List.mem_cons, ih]
      constructor
      · intro hm; exact Or.inr hm
      · rintro (hx | hm)
        · exact absurd hx.symm h
        · exact hm

theorem wbFind_isSome_eq_of_keys_eq {m1 m2 : List (Entity × WireBoxEntry)}
    (h : m1.map Prod.fst = m2.map Prod.fst) (x : Entity) :
    (wbFind m1 x).isSome = (wbFind m2 x).isSome := by
  by_cases h1 : x ∈ m1.map Prod.fst
  · rw [(wbFind_isSome_iff_mem m1 x).2 h1, (wbFind_isSome_iff_mem m2 x).2 (h ▸ h1)]
  · have h2 : ¬ x ∈ m2.map Prod.fst := h ▸ h1
    have e1 : (wbFind m1 x).isSome = false := by
      cases hf : (wbFind m1 x).isSome
      · rfl
      · exact absurd ((wbFind_isSome_iff_mem m1 x).1 hf) h1
    have e2 : (wbFind m2 x).isSome = false := by
      cases hf : (wbFind m2 x).isSome
      · rfl
      · exact absurd ((wbFind_isSome_iff_mem m2 x).1 hf) h2
    rw [e1, e2]

theorem wbFind_setParentVisible_isSome (m : List (Entity × WireBoxEntry)) (e x : Entity)
    (b : Bool) : (wbFind (wbSetParentVisible m e b) x).isSome = (wbFind m x).isSome :=
  wbFind_isSome_eq_of_keys_eq (wbSetParentVisible_keys m e b) x

/-! ### Field preservation through lowlighting -/

/-- All plugin fields except the wire-box map coincide between `s` and `t`. -/
def SameExceptWireBoxes (s t : PluginState) : Prop :=
  t.selectionHelper = s.selectionHelper ∧ t.selectedEntities = s.selectedEntities ∧
  t.scene = s.scene ∧ t.mouseEvent = s.mouseEvent ∧ t.mouseDirty = s.mouseDirty ∧
  t.camera = s.camera ∧ t.transformControlActive = s.transformControlActive

theorem sameExcept_refl (s : PluginState) : SameExceptWireBoxes s s :=
  ⟨rfl, rfl, rfl, rfl, rfl, rfl, rfl⟩

theorem sameExcept_trans {s t u : PluginState} (h1 : SameExceptWireBoxes s t)
    (h2 : SameExceptWireBoxes t u) : SameExceptWireBoxes s u := by
  obtain ⟨a1, b1, c1, d1, e1, f1, g1⟩ := h1
  obtain ⟨a2, b2, c2, d2, e2, f2, g2⟩ := h2
  exact ⟨a2.trans a1, b2.trans b1, c2.trans c1, d2.trans d1, e2.trans e1,
    f2.trans f1, g2.trans g1⟩

theorem lowlight_sameExcept (vis : Option Visual) (s : PluginState) :
    SameExceptWireBoxes s (LowlightNode vis s) := by
  simp only [LowlightNode]
  split
  · split
    · exact ⟨rfl, rfl, rfl, rfl, rfl, rfl, rfl⟩
    · exact sameExcept_refl s
  · exact sameExcept_refl s

theorem lowlight_keys (vis : Option Visual) (s : PluginState) :
    wireBoxKeys (LowlightNode vis s) = wireBoxKeys s := by
  simp only [LowlightNode, wireBoxKeys]
  split
  · split
    · exact wbSetParentVisible_keys _ _ _
    · rfl
  · rfl

theorem lowlight_find_isSome (vis : Option Visual) (s : PluginState) (x : Entity) :
    (wbFind (LowlightNode vis s).wireBoxes x).isSome = (wbFind s.wireBoxes x).isSome :=
  wbFind_isSome_eq_of_keys_eq (lowlight_keys vis s) x

theorem foldl_lowlight_sameExcept (f : Nat → Option Visual) (l : List Nat) (s : PluginState) :
    SameExceptWireBoxes s (l.foldl (fun acc e => LowlightNode (f e) acc) s) := by
  induction l generalizing s with
  | nil => exact sameExcept_refl s
  | cons a rest ih =>
    exact sameExcept_trans (lowlight_sameExcept (f a) s) (ih (LowlightNode (f a) s))

theorem foldl_lowlight_keys (f : Nat → Option Visual) (l : List Nat) (s : PluginState) :
    wireBoxKeys (l.foldl (fun acc e => LowlightNode (f e) acc) s) = wireBoxKeys s := by
  induction l generalizing s with
  | nil => rfl
  | cons a rest ih =>
    simpa [lowlight_keys] using ih (LowlightNode (f a) s)

theorem foldl_lowlight_find_isSome (f : Nat → Option Visual) (l : List Nat) (s : PluginState)
    (x : Entity) :
    (wbFind ((l.foldl (fun acc e => LowlightNode (f e) acc) s)).wireBoxes x).isSome =
      (wbFind s.wireBoxes x).isSome := by
  induction l generalizing s with
  | nil => rfl
  | cons a rest ih =>
    simpa [lowlight_find_isSome] using ih (LowlightNode (f a) s)

/-! ### Characterization of DeselectAllEntities and Initialize -/

theorem deselect_none (s : PluginState) (h : s.scene = none) :
    DeselectAllEntities s = (s, []) := by
  simp only [DeselectAllEntities, h]

theorem deselect_some_fst (s : PluginState) (sc : Scene) (h : s.scene = some sc) :
    (DeselectAllEntities s).1 =
      { s.selectedEntities.foldl (fun acc e => LowlightNode (sc.visualById e) acc) s with
        selectedEntities := [] } := by
  simp only [DeselectAllEntities, h]

theorem deselect_some_snd (s : PluginState) (sc : Scene) (h : s.scene = some sc) :
    (DeselectAllEntities s).2 = [GuiEvent.deselectAllEvent true] := by
  simp only [DeselectAllEntities, h]

theorem deselect_selected (s : PluginState) (sc : Scene) (h : s.scene = some sc) :
    (DeselectAllEntities s).1.selectedEntities = [] := by
  rw [deselect_some_fst s sc h]

theorem deselect_char (s : PluginState) :
    (DeselectAllEntities s).1.scene = s.scene ∧
    (DeselectAllEntities s).1.selectionHelper = s.selectionHelper ∧
    (DeselectAllEntities s).1.mouseEvent = s.mouseEvent ∧
    (DeselectAllEntities s).1.mouseDirty = s.mouseDirty ∧
    (DeselectAllEntities s).1.camera = s.camera ∧
    (DeselectAllEntities s).1.transformControlActive = s.transformControlActive ∧
    wireBoxKeys (DeselectAllEntities s).1 = wireBoxKeys s ∧
    (∀ x, (wbFind (DeselectAllEntities s).1.wireBoxes x).isSome =
      (wbFind s.wireBoxes x).isSome) := by
  cases hs : s.scene with
  | none =>
    rw [deselect_none s hs]
    exact ⟨hs, rfl, rfl, rfl, rfl, rfl, rfl, fun x => rfl⟩
  | some sc =>
    rw [deselect_some_fst s sc hs]
    obtain ⟨h1, h2, h3, h4, h5, h6, h7⟩ :=
      foldl_lowlight_sameExcept (fun e => sc.visualById e) s.selectedEntities s
    refine ⟨h3.trans hs, h1, h4, h5, h6, h7, ?_, ?_⟩
    · simpa [wireBoxKeys] using foldl_lowlight_keys (fun e => sc.visualById e) s.selectedEntities s
    · intro x
      simpa using foldl_lowlight_find_isSome (fun e => sc.visualById e) s.selectedEntities s x

theorem initialize_char (env : RenderEnv) (s : PluginState) :
    (Initialize env s).selectionHelper = s.selectionHelper ∧
    (Initialize env s).selectedEntities = s.selectedEntities ∧
    (Initialize env s).wireBoxes = s.wireBoxes ∧
    (Initialize env s).mouseEvent = s.mouseEvent ∧
    (Initialize env s).mouseDirty = s.mouseDirty ∧
    (Initialize env s).transformControlActive = s.transformControlActive := by
  simp only [Initialize]
  split
  · exact ⟨rfl, rfl, rfl, rfl, rfl, rfl⟩
  · split
    · exact ⟨rfl, rfl, rfl, rfl, rfl, rfl⟩
    · exact ⟨rfl, rfl, rfl, rfl, rfl, rfl⟩

/-! ### Characterization of highlighting and selection -/

theorem highlight_some_char (v : Visual) (s : PluginState) (sc : Scene)
    (hsc : s.scene = some sc) :
    ∃ t, HighlightNode (some v) s = some t ∧ SameExceptWireBoxes s t ∧
      (∀ x, x ∈ wireBoxKeys t ↔ x ∈ wireBoxKeys s ∨ x = v.gazeboEntity) := by
  simp only [HighlightNode, gazeboEntityOf, hsc]
  cases hf : wbFind s.wireBoxes v.gazeboEntity with
  | none =>
    dsimp only
    refine ⟨_, rfl, ⟨rfl, rfl, hsc.symm, rfl, rfl, rfl, rfl⟩, ?_⟩
    intro x
    simp [wireBoxKeys]
  | some wb =>
    dsimp only
    have hmem : v.gazeboEntity ∈ wireBoxKeys s := by
      have hi : (wbFind s.wireBoxes v.gazeboEntity).isSome = true := by rw [hf]; rfl
      exact (wbFind_isSome_iff_mem _ _).1 hi
    have hiff : ∀ x : Entity, x ∈ wireBoxKeys s ↔ x ∈ wireBoxKeys s ∨ x = v.gazeboEntity := by
      intro x
      constructor
      · intro hx; exact Or.inl hx
      · rintro (hx | hx)
        · exact hx
        · exact hx ▸ hmem
    by_cases hp : wb.hasParent
    · rw [if_pos hp]
      refine ⟨_, rfl, ⟨rfl, rfl, hsc.symm, rfl, rfl, rfl, rfl⟩, ?_⟩
      intro x
      simp only [wireBoxKeys, wbSetParentVisible_keys]
      exact hiff x
    · rw [if_neg hp]
      exact ⟨s, rfl, sameExcept_refl s, hiff⟩

theorem setSelected_char (v : Visual) (s : PluginState) (sc : Scene)
    (hsc : s.scene = some sc) (hge : v.gazeboEntity ≠ kNullEntity) :
    ∃ t, SetSelectedEntity (some v) s =
        some (t, [GuiEvent.entitiesSelected (s.selectedEntities ++ [v.id]) true]) ∧
      t.selectedEntities = s.selectedEntities ++ [v.id] ∧
      t.selectionHelper = s.selectionHelper ∧ t.scene = s.scene ∧
      t.mouseEvent = s.mouseEvent ∧ t.mouseDirty = s.mouseDirty ∧
      t.camera = s.camera ∧ t.transformControlActive = s.transformControlActive ∧
      (∀ x, x ∈ wireBoxKeys t ↔ x ∈ wireBoxKeys s ∨ x = v.gazeboEntity) := by
  have hsc1 : ({ s with selectedEntities := s.selectedEntities ++ [v.id] } : PluginState).scene =
      some sc := hsc
  obtain ⟨t, ht, hsew, hkeys⟩ :=
    highlight_some_char v { s with selectedEntities := s.selectedEntities ++ [v.id] } sc hsc1
  obtain ⟨hh1, hh2, hh3, hh4, hh5, hh6, hh7⟩ := hsew
  refine ⟨t, ?_, hh2, hh1, hh3, hh4, hh5, hh6, hh7, hkeys⟩
  simp only [SetSelectedEntity, gazeboEntityOf, if_neg hge, ht]
  rw [hh2]

theorem update_char (ctrl : Bool) (v : Visual) (sendEv : Bool) (s : PluginState) (sc : Scene)
    (hsc : s.scene = some sc) (hge : v.gazeboEntity ≠ kNullEntity) :
    ∃ t evs, UpdateSelectedEntity ctrl (some v) sendEv s = some (t, evs) ∧
      t.selectedEntities =
        (if (!ctrl && !s.selectedEntities.isEmpty) || s.transformControlActive
          then ([] : List Nat) else s.selectedEntities) ++ [v.id] ∧
      t.scene = s.scene ∧ t.selectionHelper = s.selectionHelper ∧
      t.mouseEvent = s.mouseEvent ∧ t.mouseDirty = s.mouseDirty ∧
      t.camera = s.camera ∧ t.transformControlActive = s.transformControlActive ∧
      (∀ x, x ∈ wireBoxKeys t ↔ x ∈ wireBoxKeys s ∨ x = v.gazeboEntity) := by
  by_cases hd : ((!ctrl && !s.selectedEntities.isEmpty) || s.transformControlActive) = true
  · obtain ⟨hd1, hd2, hd3, hd4, hd5, hd6, hd7, hd8⟩ := deselect_char s
    have hdsc : (DeselectAllEntities s).1.scene = some sc := hd1.trans hsc
    obtain ⟨t, ht, hs1, hs2, hs3, hs4, hs5, hs6, hs7, hkeys⟩ :=
      setSelected_char v (DeselectAllEntities s).1 sc hdsc hge
    have hde : (DeselectAllEntities s).1.selectedEntities = [] := deselect_selected s sc hsc
    have heq : ∃ evs, UpdateSelectedEntity ctrl (some v) sendEv s = some (t, evs) := by
      simp only [UpdateSelectedEntity, hd, if_true, Bool.or_true, ht]
      exact ⟨_, rfl⟩
    obtain ⟨evs, heq⟩ := heq
    refine ⟨t, evs, heq, ?_, hs3.trans hd1, hs2.trans hd2, hs4.trans hd3,
      hs5.trans hd4, hs6.trans hd5, hs7.trans hd6, ?_⟩
    · rw [hs1, hde]
      simp [hd]
    · intro x
      rw [hkeys x, hd7]
  · have hdf : ((!ctrl && !s.selectedEntities.isEmpty) || s.transformControlActive) = false := by
      cases hv : ((!ctrl && !s.selectedEntities.isEmpty) || s.transformControlActive)
      · rfl
      · exact absurd hv hd
    obtain ⟨t, ht, hs1, hs2, hs3, hs4, hs5, hs6, hs7, hkeys⟩ := setSelected_char v s sc hsc hge
    have heq : ∃ evs, UpdateSelectedEntity ctrl (some v) sendEv s = some (t, evs) := by
      cases hse : sendEv with
      | true =>
        refine ⟨[GuiEvent.entitiesSelected (s.selectedEntities ++ [v.id]) true,
          GuiEvent.entitiesSelected t.selectedEntities false], ?_⟩
        simp [UpdateSelectedEntity, hdf, ht]
      | false =>
        refine ⟨[GuiEvent.entitiesSelected (s.selectedEntities ++ [v.id]) true], ?_⟩
        simp [UpdateSelectedEntity, hdf, ht]
    obtain ⟨evs, heq⟩ := heq
    refine ⟨t, evs, heq, ?_, hs3, hs2, hs4, hs5, hs6, hs7, hkeys⟩
    rw [hs1]
    simp [hdf]

/-! ### Characterization of HandleEntitySelection, branch by branch -/

theorem handle_not_dirty (ctrl : Bool) (s : PluginState) (h : s.mouseDirty = false) :
    HandleEntitySelection ctrl s = some (s, []) := by
  simp [HandleEntitySelection, h]

theorem handle_dirty_null_scene (ctrl : Bool) (s : PluginState)
    (hd : s.mouseDirty = true) (hs : s.scene = none) :
    HandleEntitySelection ctrl s = none := by
  simp [HandleEntitySelection, hd, hs]

theorem handle_miss (ctrl : Bool) (s : PluginState) (sc : Scene)
    (hd : s.mouseDirty = true) (hs : s.scene = some sc)
    (hv : sc.visualAt s.camera s.mouseEvent.pos = none) :
    HandleEntitySelection ctrl s =
      some (DeselectAllEntities { s with mouseDirty := false }) := by
  simp [HandleEntitySelection, hd, hs, hv]

theorem handle_pending_deselect_char (ctrl : Bool) (s : PluginState) (sc : Scene) (v : Visual)
    (hd : s.mouseDirty = true) (hs : s.scene = some sc)
    (hv : sc.visualAt s.camera s.mouseEvent.pos = some v)
    (hda : s.selectionHelper.deselectAll = true) :
    ∃ t evs, HandleEntitySelection ctrl s = some (t, evs) ∧
      t.selectedEntities = [] ∧ t.mouseDirty = false ∧
      wireBoxKeys t = wireBoxKeys s ∧ t.scene = s.scene ∧
      t.selectionHelper = defaultSelectionHelper := by
  set s2 : PluginState :=
    { s with
      mouseDirty := false,
      selectionHelper := { s.selectionHelper with selectEntity := v.gazeboEntity } } with hs2
  have hs2sc : s2.scene = some sc := hs
  obtain ⟨c1, c2, c3, c4, c5, c6, c7, c8⟩ := deselect_char s2
  have hde : (DeselectAllEntities s2).1.selectedEntities = [] := deselect_selected s2 sc hs2sc
  have hseq : HandleEntitySelection ctrl s =
      some ({ (DeselectAllEntities s2).1 with selectionHelper := defaultSelectionHelper },
        (DeselectAllEntities s2).2) := by
    simp [HandleEntitySelection, hd, hs, hv, hda, hs2]
  refine ⟨_, _, hseq, ?_, ?_, ?_, ?_, rfl⟩
  · simpa using hde
  · simpa using c4
  · simpa [wireBoxKeys] using c7
  · simpa using c1

theorem handle_hit_null_entity (ctrl : Bool) (s : PluginState) (sc : Scene) (v : Visual)
    (hd : s.mouseDirty = true) (hs : s.scene = some sc)
    (hv : sc.visualAt s.camera s.mouseEvent.pos = some v)
    (hda : s.selectionHelper.deselectAll = false)
    (hge : v.gazeboEntity = kNullEntity) :
    HandleEntitySelection ctrl s =
      some ({ s with
        mouseDirty := false,
        selectionHelper := { s.selectionHelper with selectEntity := v.gazeboEntity } }, []) := by
  simp [HandleEntitySelection, hd, hs, hv, hda, hge]

theorem handle_hit_char (ctrl : Bool) (s : PluginState) (sc : Scene) (v : Visual)
    (hd : s.mouseDirty = true) (hs : s.scene = some sc)
    (hv : sc.visualAt s.camera s.mouseEvent.pos = some v)
    (hda : s.selectionHelper.deselectAll = false)
    (hge : v.gazeboEntity ≠ kNullEntity) :
    ∃ t evs, HandleEntitySelection ctrl s = some (t, evs) ∧
      t.selectionHelper = defaultSelectionHelper ∧
      t.selectedEntities =
        (if (!ctrl && !s.selectedEntities.isEmpty) || s.transformControlActive
          then ([] : List Nat) else s.selectedEntities) ++ [v.id] ∧
      t.scene = s.scene ∧ t.mouseDirty = false ∧
      (∀ x, x ∈ wireBoxKeys t ↔ x ∈ wireBoxKeys s ∨ x = v.gazeboEntity) := by
  obtain ⟨t, evs, hupd, hu1, hu2, hu3, hu4, hu5, hu6, hu7, hkeys⟩ :=
    update_char ctrl v s.selectionHelper.sendEvent
      { selectionHelper :=
          { selectEntity := v.gazeboEntity,
            deselectAll := false,
            sendEvent := s.selectionHelper.sendEvent },
        selectedEntities := s.selectedEntities,
        scene := some sc,
        wireBoxes := s.wireBoxes,
        mouseEvent := s.mouseEvent,
        mouseDirty := false,
        camera := s.camera,
        transformControlActive := s.transformControlActive } sc rfl hge
  have hseq : HandleEntitySelection ctrl s =
      some ({ t with selectionHelper := defaultSelectionHelper }, evs) := by
    simp [HandleEntitySelection, hd, hs, hv, hda, hge, hupd]
  refine ⟨_, evs, hseq, rfl, ?_, ?_, ?_, ?_⟩
  · simpa using hu1
  · rw [hs]
    simpa using hu2
  · simpa using hu5
  · intro x
    simpa using hkeys x

theorem bool_not_true {b : Bool} (h : ¬ b = true) : b = false := by
  cases hb : b
  · rfl
  · exact absurd hb h

theorem handle_result_not_dirty (ctrl : Bool) (s t : PluginState) (evs : List GuiEvent)
    (h : HandleEntitySelection ctrl s = some (t, evs)) : t.mouseDirty = false := by
  by_cases hd : s.mouseDirty = true
  · cases hsc : s.scene with
    | none =>
      rw [handle_dirty_null_scene ctrl s hd hsc] at h
      cases h
    | some sc =>
      cases hv : sc.visualAt s.camera s.mouseEvent.pos with
      | none =>
        rw [handle_miss ctrl s sc hd hsc hv] at h
        have ht : (DeselectAllEntities { s with mouseDirty := false }).1 = t :=
          (Prod.ext_iff.1 (Option.some.inj h)).1
        rw [← ht]
        have hc := (deselect_char { s with mouseDirty := false }).2.2.2.1
        simpa using hc
      | some v =>
        by_cases hda : s.selectionHelper.deselectAll = true
        · obtain ⟨u, uevs, heq, hu1, hu2, hu3, hu4, hu5⟩ :=
            handle_pending_deselect_char ctrl s sc v hd hsc hv hda
          rw [heq] at h
          have ht : u = t := (Prod.ext_iff.1 (Option.some.inj h)).1
          rw [← ht]
          exact hu2
        · have hdaf : s.selectionHelper.deselectAll = false := bool_not_true hda
          by_cases hge : v.gazeboEntity = kNullEntity
          · rw [handle_hit_null_entity ctrl s sc v hd hsc hv hdaf hge] at h
            have ht : ({ s with
                mouseDirty := false,
                selectionHelper := { s.selectionHelper with
                  selectEntity := v.gazeboEntity } } : PluginState) = t :=
              (Prod.ext_iff.1 (Option.some.inj h)).1
            rw [← ht]
          · obtain ⟨u, uevs, heq, hu1, hu2, hu3, hu4, hu5⟩ :=
              handle_hit_char ctrl s sc v hd hsc hv hdaf hge
            rw [heq] at h
            have ht : u = t := (Prod.ext_iff.1 (Option.some.inj h)).1
            rw [← ht]
            exact hu4
  · have hdf : s.mouseDirty = false := bool_not_true hd
    rw [handle_not_dirty ctrl s hdf] at h
    have ht : s = t := (Prod.ext_iff.1 (Option.some.inj h)).1
    rw [← ht]
    exact hdf

theorem initialize_keys (env : RenderEnv) (s : PluginState) :
    wireBoxKeys (Initialize env s) = wireBoxKeys s :=
  congrArg (List.map Prod.fst) (initialize_char env s).2.2.1

theorem eventFilter_keys (env : RenderEnv) (ctrl : Bool) (ev : QEvent) (s t : PluginState)
    (evs : List GuiEvent) (h : eventFilter env ctrl ev s = some (t, evs)) (e : Entity) :
    e ∈ wireBoxKeys t ↔ e ∈ wireBoxKeys s ∨ stepSelected env ev s = some e := by
  cases ev with
  | leftClickOnScene m =>
    simp only [eventFilter] at h
    have ht : ({ s with mouseEvent := m, mouseDirty := true } : PluginState) = t :=
      (Prod.ext_iff.1 (Option.some.inj h)).1
    rw [← ht]
    simp [stepSelected, wireBoxKeys]
  | transformControlMode b =>
    simp only [eventFilter] at h
    have ht : ({ s with transformControlActive := b } : PluginState) = t :=
      (Prod.ext_iff.1 (Option.some.inj h)).1
    rw [← ht]
    simp [stepSelected, wireBoxKeys]
  | other =>
    simp only [eventFilter] at h
    have ht : s = t := (Prod.ext_iff.1 (Option.some.inj h)).1
    rw [← ht]
    simp [stepSelected]
  | render =>
    simp only [eventFilter] at h
    set s0 := Initialize env s with hs0
    have hkeys0 : wireBoxKeys s0 = wireBoxKeys s := initialize_keys env s
    have hghost : stepSelected env QEvent.render s = renderStepSelected env s := rfl
    rw [hghost]
    by_cases hd0 : s0.mouseDirty = true
    · cases hsc : s0.scene with
      | none =>
        rw [handle_dirty_null_scene ctrl s0 hd0 hsc] at h
        cases h
      | some sc =>
        cases hv : sc.visualAt s0.camera s0.mouseEvent.pos with
        | none =>
          rw [handle_miss ctrl s0 sc hd0 hsc hv] at h
          have ht : (DeselectAllEntities { s0 with mouseDirty := false }).1 = t :=
            (Prod.ext_iff.1 (Option.some.inj h)).1
          have hg : renderStepSelected env s = none := by
            simp [renderStepSelected, ← hs0, hd0, hsc, hv]
          have hk := (deselect_char { s0 with mouseDirty := false }).2.2.2.2.2.2.1
          rw [← ht, hg]
          have hk2 : wireBoxKeys ({ s0 with mouseDirty := false } : PluginState) =
              wireBoxKeys s0 := rfl
          simp [hk, hk2, hkeys0]
        | some v =>
          by_cases hda : s0.selectionHelper.deselectAll = true
          · obtain ⟨u, uevs, heq, hu1, hu2, hu3, hu4, hu5⟩ :=
              handle_pending_deselect_char ctrl s0 sc v hd0 hsc hv hda
            rw [heq] at h
            have ht : u = t := (Prod.ext_iff.1 (Option.some.inj h)).1
            have hg : renderStepSelected env s = none := by
              simp [renderStepSelected, ← hs0, hd0, hsc, hv, hda]
            rw [← ht, hg, hu3, hkeys0]
            simp
          · have hdaf : s0.selectionHelper.deselectAll = false := bool_not_true hda
            by_cases hge : v.gazeboEntity = kNullEntity
            · rw [handle_hit_null_entity ctrl s0 sc v hd0 hsc hv hdaf hge] at h
              have ht : ({ s0 with
                  mouseDirty := false,
                  selectionHelper := { s0.selectionHelper with
                    selectEntity := v.gazeboEntity } } : PluginState) = t :=
                (Prod.ext_iff.1 (Option.some.inj h)).1
              have hg : renderStepSelected env s = none := by
                simp [renderStepSelected, ← hs0, hd0, hsc, hv, hdaf, hge]
              rw [← ht, hg]
              have hk2 : wireBoxKeys ({ s0 with
                  mouseDirty := false,
                  selectionHelper := { s0.selectionHelper with
                    selectEntity := v.gazeboEntity } } : PluginState) =
                  wireBoxKeys s0 := rfl
              rw [hk2, hkeys0]
              simp
            · obtain ⟨u, uevs, heq, hu1, hu2, hu3, hu4, hu5⟩ :=
                handle_hit_char ctrl s0 sc v hd0 hsc hv hdaf hge
              rw [heq] at h
              have ht : u = t := (Prod.ext_iff.1 (Option.some.inj h)).1
              have hg : renderStepSelected env s = some v.gazeboEntity := by
                simp [renderStepSelected, ← hs0, hd0, hsc, hv, hdaf, hge]
              rw [← ht, hg]
              rw [hkeys0] at hu5
              rw [hu5 e]
              constructor
              · rintro (hx | hx)
                · exact Or.inl hx
                · exact Or.inr (by rw [hx])
              · rintro (hx | hx)
                · exact Or.inl hx
                · exact Or.inr (Option.some.inj hx).symm
    · have hdf : s0.mouseDirty = false := bool_not_true hd0
      rw [handle_not_dirty ctrl s0 hdf] at h
      have ht : s0 = t := (Prod.ext_iff.1 (Option.some.inj h)).1
      have hg : renderStepSelected env s = none := by
        simp [renderStepSelected, ← hs0, hdf]
      rw [← ht, hg, hkeys0]
      simp

/-! ### Claims -/

/-- C1 counterexample: starting from the initial plugin state, two handled
Ctrl-clicks on the same visual (id 5, gazebo entity 7) leave the selection
list as `[5, 5]`, which contains a duplicate identifier; the claim that the
selection list never contains duplicates is false. -/
theorem C1_counterexample :
    (runScript c1Env c1Script initialState).map (fun r => r.1.selectedEntities) =
      some [5, 5] ∧
    ¬ ([5, 5] : List Nat).Nodup := by
  constructor
  · rfl
  · decide

/-- C1 (amended): when the Control key is not held, a handled click that hits
an entity leaves the selection as exactly the one recorded identifier, which
is duplicate-free; when the Control key is held and the transform control is
inactive, the recorded identifier is appended to the existing selection, so
Ctrl-clicking an already selected entity adds a second copy. -/
theorem C1_selection_setlike_amended :
    (∀ s sc v, s.mouseDirty = true → s.scene = some sc →
      s.selectionHelper.deselectAll = false →
      sc.visualAt s.camera s.mouseEvent.pos = some v →
      v.gazeboEntity ≠ kNullEntity →
      ∃ t evs, HandleEntitySelection false s = some (t, evs) ∧
        t.selectedEntities = [v.id] ∧ t.selectedEntities.Nodup) ∧
    (∀ s sc v, s.mouseDirty = true → s.scene = some sc →
      s.selectionHelper.deselectAll = false →
      sc.visualAt s.camera s.mouseEvent.pos = some v →
      v.gazeboEntity ≠ kNullEntity →
      s.transformControlActive = false →
      ∃ t evs, HandleEntitySelection true s = some (t, evs) ∧
        t.selectedEntities = s.selectedEntities ++ [v.id]) := by
  constructor
  · intro s sc v hd hs hda hv hge
    obtain ⟨t, evs, heq, hh1, hh2, hh3, hh4, hh5⟩ := handle_hit_char false s sc v hd hs hv hda hge
    refine ⟨t, evs, heq, ?_, ?_⟩
    · rw [hh2]
      by_cases hc : ((!false && !s.selectedEntities.isEmpty) || s.transformControlActive) = true
      · rw [hc]
        simp
      · have hcf := bool_not_true hc
        rw [hcf]
        have hemp : s.selectedEntities = [] := by
          have := (Bool.or_eq_false_iff.1 hcf).1
          simpa [List.isEmpty_iff] using this
        simp [hemp]
    · rw [hh2]
      by_cases hc : ((!false && !s.selectedEntities.isEmpty) || s.transformControlActive) = true
      · rw [hc]
        simp
      · have hcf := bool_not_true hc
        rw [hcf]
        have hemp : s.selectedEntities = [] := by
          have := (Bool.or_eq_false_iff.1 hcf).1
          simpa [List.isEmpty_iff] using this
        simp [hemp]
  · intro s sc v hd hs hda hv hge htca
    obtain ⟨t, evs, heq, hh1, hh2, hh3, hh4, hh5⟩ := handle_hit_char true s sc v hd hs hv hda hge
    refine ⟨t, evs, heq, ?_⟩
    rw [hh2]
    simp [htca]

/-- C1 witness: the amended claim instantiated at a concrete hit with Control
not held, from a state with a recorded click on the scene of `c1Visual`. -/
theorem C1_witness :
    ∃ t evs, HandleEntitySelection false
        { initialState with scene := some c1Scene, mouseDirty := true } = some (t, evs) ∧
      t.selectedEntities = [5] ∧ t.selectedEntities.Nodup :=
  C1_selection_setlike_amended.1
    { initialState with scene := some c1Scene, mouseDirty := true }
    c1Scene c1Visual rfl rfl rfl rfl (by decide)

/-- C2 counterexample: handling a recorded click while the scene was never
successfully initialized (scene pointer null) reaches
`this->scene->VisualAt`, a null dereference, modelled by the result `none`;
the claim that no operation dereferences a null scene is false. -/
theorem C2_counterexample : HandleEntitySelection false c2State = none := rfl

/-- C2 (amended): DeselectAllEntities guards a null scene with an early
return, Initialize returns early when no scene is available, and a null
visual from the ray cast is handled by deselecting all; but
HandleEntitySelection performs the ray cast without a null check on the
scene, so handling a recorded click with a null scene dereferences the null
scene pointer. -/
theorem C2_null_handling_amended :
    (∀ s, s.scene = none → DeselectAllEntities s = (s, [])) ∧
    (∀ env s, s.scene = none → env.firstRenderEngineScene = none →
      Initialize env s = s) ∧
    (∀ ctrl s sc, s.mouseDirty = true → s.scene = some sc →
      sc.visualAt s.camera s.mouseEvent.pos = none →
      HandleEntitySelection ctrl s =
        some (DeselectAllEntities { s with mouseDirty := false })) ∧
    (∀ ctrl s, s.mouseDirty = true → s.scene = none →
      HandleEntitySelection ctrl s = none) := by
  refine ⟨?_, ?_, ?_, ?_⟩
  · exact fun s h => deselect_none s h
  · intro env s hs he
    simp [Initialize, hs, he]
  · exact fun ctrl s sc hd hs hv => handle_miss ctrl s sc hd hs hv
  · exact fun ctrl s hd hs => handle_dirty_null_scene ctrl s hd hs

/-- C2 witness: the amended claim instantiated at concrete states for each of
its four parts. -/
theorem C2_witness :
    DeselectAllEntities initialState = (initialState, []) ∧
    Initialize { firstRenderEngineScene := none } initialState = initialState ∧
    HandleEntitySelection false c2wState =
      some (DeselectAllEntities { c2wState with mouseDirty := false }) ∧
    HandleEntitySelection true c2State = none := by
  refine ⟨?_, ?_, ?_, ?_⟩
  · exact C2_null_handling_amended.1 initialState rfl
  · exact C2_null_handling_amended.2.1 { firstRenderEngineScene := none } initialState rfl rfl
  · exact C2_null_handling_amended.2.2.1 false c2wState c2wScene rfl rfl rfl
  · exact C2_null_handling_amended.2.2.2 true c2State rfl rfl

/-- C3: for every state whose rendering scene is present, DeselectAllEntities
leaves the selected-entities list empty. -/
theorem C3_deselect_all_empties :
    ∀ s sc, s.scene = some sc → (DeselectAllEntities s).1.selectedEntities = [] :=
  fun s sc h => deselect_selected s sc h

/-- C3 witness: deselect-all on a concrete state with two selected entities
and a scene present empties the list. -/
theorem C3_witness : (DeselectAllEntities c3State).1.selectedEntities = [] :=
  C3_deselect_all_empties c3State c3Scene rfl

/-- C4: the left-click branch of the event filter only records the mouse
event and sets the dirty flag (the state is otherwise unchanged and no scene
query or selection change happens); the other non-render branches touch only
the transform-control flag; selection handling runs only from the render
branch; HandleEntitySelection is a no-op when the flag is clear, always
clears the flag, and therefore a recorded click is processed at most once:
running HandleEntitySelection again on the result changes nothing. -/
theorem C4_deferred_click_dirty_flag :
    (∀ env ctrl m s, eventFilter env ctrl (QEvent.leftClickOnScene m) s =
      some ({ s with mouseEvent := m, mouseDirty := true }, [])) ∧
    (∀ env ctrl b s, eventFilter env ctrl (QEvent.transformControlMode b) s =
      some ({ s with transformControlActive := b }, [])) ∧
    (∀ env ctrl s, eventFilter env ctrl QEvent.other s = some (s, [])) ∧
    (∀ ctrl s, s.mouseDirty = false → HandleEntitySelection ctrl s = some (s, [])) ∧
    (∀ ctrl s t evs, HandleEntitySelection ctrl s = some (t, evs) → t.mouseDirty = false) ∧
    (∀ ctrl ctrl2 s t evs, HandleEntitySelection ctrl s = some (t, evs) →
      HandleEntitySelection ctrl2 t = some (t, [])) := by
  refine ⟨fun env ctrl m s => rfl, fun env ctrl b s => rfl, fun env ctrl s => rfl,
    fun ctrl s h => handle_not_dirty ctrl s h,
    fun ctrl s t evs h => handle_result_not_dirty ctrl s t evs h,
    fun ctrl ctrl2 s t evs h =>
      handle_not_dirty ctrl2 t (handle_result_not_dirty ctrl s t evs h)⟩

/-- C4 witness: the click branch and the clear-flag no-op instantiated at the
initial state. -/
theorem C4_witness :
    eventFilter c4Env true (QEvent.leftClickOnScene c4Mouse) initialState =
      some ({ initialState with mouseEvent := c4Mouse, mouseDirty := true }, []) ∧
    HandleEntitySelection false initialState = some (initialState, []) :=
  ⟨C4_deferred_click_dirty_flag.1 c4Env true c4Mouse initialState,
    C4_deferred_click_dirty_flag.2.2.2.1 false initialState rfl⟩

/-- C5 counterexample: with the transform control active, a handled Ctrl-click
that hits the visual with scene-graph id 15 and gazebo entity 17 leaves the
selection list `[15]`, the visual id, not `[17]`, the entity id of the
clicked entity; so the list does not contain "the one clicked entity" in the
sense of the glossary (numeric identifier of the simulated object). -/
theorem C5_counterexample :
    (runScript c5Env c5Script initialState).map (fun r => r.1.selectedEntities) =
      some [15] ∧
    c5Visual.gazeboEntity = 17 ∧ ([15] : List Nat) ≠ [17] := by
  refine ⟨rfl, rfl, ?_⟩
  decide

/-- C5 (amended): while the transform control is active, a handled click that
hits an entity first deselects everything and then selects the clicked
visual, so afterwards the selection list is exactly the one identifier
recorded for the clicked visual (its visual id), even if the Control key is
held. -/
theorem C5_transform_control_single_selection :
    ∀ ctrl s sc v, s.transformControlActive = true → s.mouseDirty = true →
      s.scene = some sc → s.selectionHelper.deselectAll = false →
      sc.visualAt s.camera s.mouseEvent.pos = some v →
      v.gazeboEntity ≠ kNullEntity →
      ∃ t evs, HandleEntitySelection ctrl s = some (t, evs) ∧
        t.selectedEntities = [v.id] := by
  intro ctrl s sc v htca hd hs hda hv hge
  obtain ⟨t, evs, heq, hh1, hh2, hh3, hh4, hh5⟩ := handle_hit_char ctrl s sc v hd hs hv hda hge
  refine ⟨t, evs, heq, ?_⟩
  rw [hh2]
  simp [htca]

/-- C5 witness: the amended claim at a concrete transform-control-active state
with a prior selection and Control held. -/
theorem C5_witness :
    ∃ t evs, HandleEntitySelection true c5wState = some (t, evs) ∧
      t.selectedEntities = [31] :=
  C5_transform_control_single_selection true c5wState c5wScene c5wVisual
    rfl rfl rfl rfl rfl (by decide)

/-- C6 counterexample: selecting the visual with scene-graph id 21 whose
gazebo-entity user data is 23 appends 21 (the visual id) to the selection,
not 23 (the simulation entity id); the claim that the appended identifier is
the entity id resolved from the gazebo-entity user data is false. -/
theorem C6_counterexample :
    (SetSelectedEntity (some c6Visual) c6State).map (fun r => r.1.selectedEntities) =
      some [21] ∧
    c6Visual.gazeboEntity = 23 ∧ ([21] : List Nat) ≠ [23] := by
  refine ⟨rfl, rfl, ?_⟩
  decide

/-- C6 (amended): the identifier appended to the selection list, and carried
by the EntitiesSelected event, is the hit visual id returned by Visual Id;
the gazebo-entity user data is used only as a guard: when it is the null
entity nothing is appended and no event is posted. -/
theorem C6_appends_visual_id :
    (∀ v s sc, s.scene = some sc → v.gazeboEntity ≠ kNullEntity →
      ∃ t, SetSelectedEntity (some v) s =
          some (t, [GuiEvent.entitiesSelected (s.selectedEntities ++ [v.id]) true]) ∧
        t.selectedEntities = s.selectedEntities ++ [v.id]) ∧
    (∀ v s, v.gazeboEntity = kNullEntity → SetSelectedEntity (some v) s = some (s, [])) := by
  constructor
  · intro v s sc hsc hge
    obtain ⟨t, ht, hs1, hrest⟩ := setSelected_char v s sc hsc hge
    exact ⟨t, ht, hs1⟩
  · intro v s hge
    simp [SetSelectedEntity, gazeboEntityOf, hge]

/-- C6 witness: the amended claim at a concrete visual (id 41, entity 43) and
at a concrete null-entity visual. -/
theorem C6_witness :
    (∃ t, SetSelectedEntity (some c6wVisual) c6wState =
        some (t, [GuiEvent.entitiesSelected ([] ++ [41]) true]) ∧
      t.selectedEntities = [] ++ [41]) ∧
    SetSelectedEntity (some c6wNullVisual) initialState = some (initialState, []) :=
  ⟨C6_appends_visual_id.1 c6wVisual c6wState c6wScene rfl (by decide),
    C6_appends_visual_id.2 c6wNullVisual initialState rfl⟩

/-- C7: across every handled event-filter step, an identifier is a key of the
wire-box decoration map afterwards iff it was a key before or the step
selected that entity (so, by induction over a session starting from the
empty map, an entry exists iff its entity was selected at some earlier
point); lowlighting preserves the key set and the presence of every entry
(deselection only hides, never removes); deselect-all preserves the key set;
and the first selection of an entity creates its map entry. -/
theorem C7_wirebox_decoration_invariant :
    (∀ env ctrl ev s t evs, eventFilter env ctrl ev s = some (t, evs) →
      ∀ e, e ∈ wireBoxKeys t ↔ e ∈ wireBoxKeys s ∨ stepSelected env ev s = some e) ∧
    (∀ vis s, wireBoxKeys (LowlightNode vis s) = wireBoxKeys s ∧
      ∀ x, (wbFind (LowlightNode vis s).wireBoxes x).isSome =
        (wbFind s.wireBoxes x).isSome) ∧
    (∀ s, wireBoxKeys (DeselectAllEntities s).1 = wireBoxKeys s) ∧
    (∀ v s sc, s.scene = some sc → v.gazeboEntity ≠ kNullEntity →
      wbFind s.wireBoxes v.gazeboEntity = none →
      ∃ t evs2, SetSelectedEntity (some v) s = some (t, evs2) ∧
        (wbFind t.wireBoxes v.gazeboEntity).isSome = true) := by
  refine ⟨fun env ctrl ev s t evs h e => eventFilter_keys env ctrl ev s t evs h e,
    ?_, ?_, ?_⟩
  · intro vis s
    exact ⟨lowlight_keys vis s, fun x => lowlight_find_isSome vis s x⟩
  · intro s
    exact (deselect_char s).2.2.2.2.2.2.1
  · intro v s sc hsc hge hfnone
    obtain ⟨t, ht, hs1, hs2, hs3, hs4, hs5, hs6, hs7, hkeys⟩ := setSelected_char v s sc hsc hge
    refine ⟨t, _, ht, ?_⟩
    rw [wbFind_isSome_iff_mem]
    exact (hkeys v.gazeboEntity).2 (Or.inr rfl)

/-- C7 witness: the step invariant at a concrete no-op step, and entry
creation at a concrete first selection of entity 53. -/
theorem C7_witness :
    (3 ∈ wireBoxKeys initialState ↔
      3 ∈ wireBoxKeys initialState ∨
        stepSelected c7Env QEvent.other initialState = some 3) ∧
    (∃ t evs2, SetSelectedEntity (some c7Visual) c7State = some (t, evs2) ∧
      (wbFind t.wireBoxes 53).isSome = true) :=
  ⟨C7_wirebox_decoration_invariant.1 c7Env false QEvent.other initialState
      initialState [] rfl 3,
    C7_wirebox_decoration_invariant.2.2.2 c7Visual c7State c7Scene rfl (by decide) rfl⟩

/-- C8: the Material ECS component is the Component template instantiated
over the sdf material data type with the paired serializer converting to and
from the msgs material message, registered in the component registry under
the name string used by the registration macro. -/
theorem C8_material_component_registration :
    componentRegistry.lookup "gz_sim_components.Material" = some Material ∧
    Material = Component SdfMaterial MaterialTag MaterialSerializer ∧
    MaterialSerializer = ComponentToMsgSerializer SdfMaterial MsgsMaterial := by
  refine ⟨?_, rfl, rfl⟩
  rfl

/-- C9: a handled click whose ray cast returns no visual deselects all
currently selected entities and broadcasts one deselect-all event, for every
Control state and every pending selection-helper request. -/
theorem C9_miss_deselects_all :
    ∀ ctrl s sc, s.mouseDirty = true → s.scene = some sc →
      sc.visualAt s.camera s.mouseEvent.pos = none →
      ∃ t, HandleEntitySelection ctrl s = some (t, [GuiEvent.deselectAllEvent true]) ∧
        t.selectedEntities = [] := by
  intro ctrl s sc hd hs hv
  have heq := handle_miss ctrl s sc hd hs hv
  have hsc2 : ({ s with mouseDirty := false } : PluginState).scene = some sc := hs
  have h2 := deselect_some_snd { s with mouseDirty := false } sc hsc2
  have h1 := deselect_selected { s with mouseDirty := false } sc hsc2
  refine ⟨(DeselectAllEntities { s with mouseDirty := false }).1, ?_, h1⟩
  rw [heq, ← h2]

/-- C9 witness: a concrete missed click with Control held, a nonempty
selection and a pending deselect-all request still deselects all and posts
the deselect-all event. -/
theorem C9_witness :
    ∃ t, HandleEntitySelection true c9State =
        some (t, [GuiEvent.deselectAllEvent true]) ∧
      t.selectedEntities = [] :=
  C9_miss_deselects_all true c9State c9Scene rfl rfl rfl

/-- C10: calling DeselectAllEntities while the scene pointer is null leaves
the state unchanged and posts no event. -/
theorem C10_deselect_null_scene_noop :
    ∀ s, s.scene = none → DeselectAllEntities s = (s, []) :=
  fun s h => deselect_none s h

/-- C10 witness: deselect-all on a concrete sceneless state with a nonempty
selection list changes nothing and posts nothing. -/
theorem C10_witness : DeselectAllEntities c10State = (c10State, []) :=
  C10_deselect_null_scene_noop c10State rfl
